import Mathlib

/-!
Verification of the frame-sampling and aggregation pipeline of the
AI Urban Warfare Analyst repository, as a shallow embedding in Lean.

The embedding covers `frame_extractor.py` (percentage-based frame index
computation, image resizing, argument defaulting), the configuration
values of `config.py` that those functions read, and
`performance_summarizer.py` (aggregation of per-frame analyses, rating
bands, error/strength categorisation, recommendation generation).

Numbers are modelled with exact arithmetic: Python `float` positions and
scores become `ℚ`, Python `int` becomes `ℤ` (or `ℕ` for quantities that
are non-negative by construction, such as image dimensions and counts).
Python dictionaries read exclusively through `.get(key, default)` become
structures with `Option` fields read through `Option.getD`.
-/

namespace UrbanWarfare

/-! ### Python primitives -/

/-- Python `int(x)` applied to a number: truncation toward zero. -/
def pyInt (x : ℚ) : ℤ := if 0 ≤ x then ⌊x⌋ else ⌈x⌉

/-- Python `round(x)`: round half to even. -/
def pyRound (x : ℚ) : ℤ :=
  if x - ⌊x⌋ < 1/2 then ⌊x⌋
  else if 1/2 < x - ⌊x⌋ then ⌊x⌋ + 1
  else if ⌊x⌋ % 2 = 0 then ⌊x⌋ else ⌊x⌋ + 1

/-- Python `round(x, 1)`: round to one decimal place. -/
def pyRound1 (x : ℚ) : ℚ := (pyRound (x * 10) : ℚ) / 10

/-- Python `sub in s` on strings: substring containment. -/
def py_in (sub s : String) : Bool := decide (sub.data <:+: s.data)

/-- Python `s.lower()`: lowercase every character.  Written through the
character list (core `String.toLower` is the same map expressed with
byte positions, which kernel reduction cannot evaluate). -/
def py_lower (s : String) : String := String.mk (s.data.map Char.toLower)

/-! ### config.py -/

/-- The fields of `Config` (config.py) read by `extract_key_frames`.
`NUM_FRAMES` and `FRAME_RESIZE_MAX` come from environment variables with
defaults 3 and 720; `FRAME_EXTRACTION_POSITIONS` is the fixed class
attribute `[0.25, 0.50, 0.75]`. -/
structure Config where
  NUM_FRAMES : ℕ
  FRAME_RESIZE_MAX : ℕ
  FRAME_EXTRACTION_POSITIONS : List ℚ
deriving Repr, DecidableEq

/-- The configuration with every environment variable unset: the
documented default values. -/
def Config.defaults : Config where
  NUM_FRAMES := 3
  FRAME_RESIZE_MAX := 720
  FRAME_EXTRACTION_POSITIONS := [1/4, 1/2, 3/4]

/-! ### frame_extractor.py -/

/-- An image, reduced to its dimensions.  Pixel content is produced and
transformed by the external imaging library and no claim depends on it. -/
structure PImage where
  width : ℕ
  height : ℕ
deriving Repr, DecidableEq

/-- `FrameExtractor._resize_image` (frame_extractor.py lines 112 to 137):
return the image unchanged when both dimensions are at most
`max_dimension`, otherwise set the larger dimension to `max_dimension`
and the other one to `int(other * (max_dimension / larger))`, which is
truncation of the exact rational product. -/
def resize_image (image : PImage) (max_dimension : ℕ) : PImage :=
  if image.width ≤ max_dimension ∧ image.height ≤ max_dimension then image
  else if image.width > image.height then
    { width := max_dimension
      height := (pyInt ((image.height : ℚ) *
        ((max_dimension : ℚ) / (image.width : ℚ)))).toNat }
  else
    { height := max_dimension
      width := (pyInt ((image.width : ℚ) *
        ((max_dimension : ℚ) / (image.height : ℚ)))).toNat }

/-- `frame_number = int(total_frames * position)` in `extract_key_frames`
(frame_extractor.py line 82).  The source applies no clamping to the
result. -/
def frame_number (total_frames : ℕ) (position : ℚ) : ℤ :=
  pyInt ((total_frames : ℚ) * position)

/-- `num_frames = num_frames or self.config.NUM_FRAMES`
(frame_extractor.py line 54): Python `or` replaces a missing (`None`)
argument, and also a falsy explicit `0`, by the configured value. -/
def resolve_num_frames (num_frames : Option ℕ) (config : Config) : ℕ :=
  match num_frames with
  | none => config.NUM_FRAMES
  | some n => if n = 0 then config.NUM_FRAMES else n

/-- `positions = positions or self.config.FRAME_EXTRACTION_POSITIONS`
(frame_extractor.py line 55): an absent argument and a falsy explicit
empty list both fall back to the configured positions. -/
def resolve_positions (positions : Option (List ℚ)) (config : Config) : List ℚ :=
  match positions with
  | none => config.FRAME_EXTRACTION_POSITIONS
  | some ps => if ps = [] then config.FRAME_EXTRACTION_POSITIONS else ps

/-- `resize_max = resize_max or self.config.FRAME_RESIZE_MAX`
(frame_extractor.py line 56). -/
def resolve_resize_max (resize_max : Option ℕ) (config : Config) : ℕ :=
  match resize_max with
  | none => config.FRAME_RESIZE_MAX
  | some m => if m = 0 then config.FRAME_RESIZE_MAX else m

/-- The positions the extraction loop actually iterates:
`positions[:num_frames]` after argument defaulting
(frame_extractor.py line 80). -/
def sample_plan (num_frames : Option ℕ) (positions : Option (List ℚ))
    (config : Config) : List ℚ :=
  (resolve_positions positions config).take (resolve_num_frames num_frames config)

/-! ### performance_summarizer.py: input records -/

/-- The `cover_summary` sub-dictionary of a frame analysis.  Every
counter is read through `.get(key, 0)`, so each field is optional. -/
structure CoverSummary where
  full_cover : Option ℤ
  partial_cover : Option ℤ
  no_cover : Option ℤ
  exposed : Option ℤ
deriving Repr, DecidableEq

/-- The `movement_analysis` sub-dictionary; only `formation` is read,
through `.get('formation', 'unknown')`. -/
structure MovementAnalysis where
  formation : Option String
deriving Repr, DecidableEq

/-- The per-frame `analysis` dictionary.  Every field the summarizer
reads is accessed with `.get` and a default, so all are optional. -/
structure Analysis where
  score : Option ℤ
  soldier_count : Option ℤ
  cover_summary : Option CoverSummary
  movement_analysis : Option MovementAnalysis
  tactical_errors : Option (List String)
  tactical_strengths : Option (List String)
deriving Repr, DecidableEq

/-- One element of `analysis_results`: the summarizer indexes `index`,
`timestamp` and `analysis` directly (not via `.get`), so these three
keys are required. -/
structure AnalysisResult where
  index : ℤ
  timestamp : ℚ
  analysis : Analysis
deriving Repr, DecidableEq

/-- The `video_metadata` dictionary, read only through `.get`. -/
structure VideoMetadata where
  filename : Option String
  duration : Option ℚ
  resolution : Option (ℤ × ℤ)
deriving Repr, DecidableEq

/-! ### performance_summarizer.py: aggregation -/

/-- The `cover_stats` accumulator (performance_summarizer.py lines
90 to 100). -/
structure CoverStats where
  full_cover : ℤ
  partial_cover : ℤ
  no_cover : ℤ
  exposed : ℤ
deriving Repr, DecidableEq

/-- The `error_frequency` dictionary.  Its keys are fixed and every read
in the source uses `.get(key, 0)`, so an absent key and a zero count are
indistinguishable; the structure stores the counts directly. -/
structure ErrorFrequency where
  spacing_issues : ℕ
  cover_issues : ℕ
  formation_issues : ℕ
deriving Repr, DecidableEq

/-- The `strength_frequency` dictionary, same reading convention. -/
structure StrengthFrequency where
  cover_utilization : ℕ
  formation_discipline : ℕ
  weapon_discipline : ℕ
deriving Repr, DecidableEq

/-- Condition of performance_summarizer.py line 112:
`'spacing' in error.lower() or 'tight' in error.lower()`. -/
def error_is_spacing (error : String) : Bool :=
  py_in "spacing" (py_lower error) || py_in "tight" (py_lower error)

/-- Condition of performance_summarizer.py line 114. -/
def error_is_cover (error : String) : Bool :=
  py_in "cover" (py_lower error) || py_in "exposed" (py_lower error)

/-- Condition of performance_summarizer.py line 116. -/
def error_is_formation (error : String) : Bool :=
  py_in "formation" (py_lower error)

/-- Condition of performance_summarizer.py line 122. -/
def strength_is_cover (strength : String) : Bool :=
  py_in "cover" (py_lower strength)

/-- Condition of performance_summarizer.py line 124. -/
def strength_is_formation (strength : String) : Bool :=
  py_in "formation" (py_lower strength) || py_in "stack" (py_lower strength)

/-- Condition of performance_summarizer.py line 126. -/
def strength_is_weapon (strength : String) : Bool :=
  py_in "weapon" (py_lower strength) || py_in "muzzle" (py_lower strength)

/-- The error-categorisation loop (performance_summarizer.py lines
109 to 117).  The three conditions are independent `if` statements, so
one error string increments every category it matches. -/
def categorize_errors (all_errors : List String) : ErrorFrequency :=
  all_errors.foldl
    (fun freq error =>
      { spacing_issues := freq.spacing_issues + (if error_is_spacing error then 1 else 0)
        cover_issues := freq.cover_issues + (if error_is_cover error then 1 else 0)
        formation_issues := freq.formation_issues + (if error_is_formation error then 1 else 0) })
    { spacing_issues := 0, cover_issues := 0, formation_issues := 0 }

/-- The strength-categorisation loop (performance_summarizer.py lines
120 to 127), same independent-condition shape. -/
def categorize_strengths (all_strengths : List String) : StrengthFrequency :=
  all_strengths.foldl
    (fun freq strength =>
      { cover_utilization := freq.cover_utilization + (if strength_is_cover strength then 1 else 0)
        formation_discipline := freq.formation_discipline + (if strength_is_formation strength then 1 else 0)
        weapon_discipline := freq.weapon_discipline + (if strength_is_weapon strength then 1 else 0) })
    { cover_utilization := 0, formation_discipline := 0, weapon_discipline := 0 }

/-- `PerformanceSummarizer._get_performance_rating`
(performance_summarizer.py lines 181 to 192). -/
def get_performance_rating (score : ℚ) : String :=
  if score ≥ 90 then "Excellent"
  else if score ≥ 75 then "Good"
  else if score ≥ 60 then "Satisfactory"
  else if score ≥ 50 then "Needs Improvement"
  else "Requires Remedial Training"

def r_fundamentals : String :=
  "Schedule additional training sessions focusing on fundamentals"

def r_spacing : String :=
  "Practice spacing drills - maintain 3-5 meter intervals during movement"

def r_cover : String :=
  "Emphasize cover utilization - always move from cover to cover"

def r_formation : String :=
  "Review and practice standard formations (wedge, line, column)"

def r_weapon : String :=
  "Continue excellent weapon handling - maintain this standard"

def r_formation_discipline : String :=
  "Formation discipline is strong - focus on refining entry techniques"

def default_rec_one : String := "Continue current training regimen"

def default_rec_two : String :=
  "Focus on maintaining consistent performance across all scenarios"

/-- `PerformanceSummarizer._generate_recommendations`
(performance_summarizer.py lines 194 to 230): sequential conditional
appends, two defaults when nothing was appended, then `[:5]`. -/
def generate_recommendations (avg_score : ℚ) (errors : ErrorFrequency)
    (strengths : StrengthFrequency) : List String :=
  let recommendations : List String := []
  let recommendations :=
    if avg_score < 70 then recommendations ++ [r_fundamentals] else recommendations
  let recommendations :=
    if errors.spacing_issues ≥ 2 then recommendations ++ [r_spacing] else recommendations
  let recommendations :=
    if errors.cover_issues ≥ 2 then recommendations ++ [r_cover] else recommendations
  let recommendations :=
    if errors.formation_issues ≥ 2 then recommendations ++ [r_formation] else recommendations
  let recommendations :=
    if strengths.weapon_discipline ≥ 2 then recommendations ++ [r_weapon] else recommendations
  let recommendations :=
    if strengths.formation_discipline ≥ 2 then recommendations ++ [r_formation_discipline]
    else recommendations
  let recommendations :=
    if recommendations = [] then recommendations ++ [default_rec_one, default_rec_two]
    else recommendations
  recommendations.take 5

/-- The recommendations whose conditions hold, in the fixed evaluation
order of `_generate_recommendations`.  Used to characterise the output
of the sequential appends. -/
def rec_candidates (avg_score : ℚ) (errors : ErrorFrequency)
    (strengths : StrengthFrequency) : List String :=
  (if avg_score < 70 then [r_fundamentals] else []) ++
  (if errors.spacing_issues ≥ 2 then [r_spacing] else []) ++
  (if errors.cover_issues ≥ 2 then [r_cover] else []) ++
  (if errors.formation_issues ≥ 2 then [r_formation] else []) ++
  (if strengths.weapon_discipline ≥ 2 then [r_weapon] else []) ++
  (if strengths.formation_discipline ≥ 2 then [r_formation_discipline] else [])

/-- Python `min(scores)`.  The source only calls it on non-empty lists
(guarded by the empty-input check); the value on `[]` is junk. -/
def list_min : List ℤ → ℤ
  | [] => 0
  | x :: xs => xs.foldl min x

/-- Python `max(scores)`, same convention as `list_min`. -/
def list_max : List ℤ → ℤ
  | [] => 0
  | x :: xs => xs.foldl max x

/-- One element of the `frames_analyzed` list of the summary
(performance_summarizer.py lines 135 to 145). -/
structure FrameStat where
  index : ℤ
  timestamp : ℚ
  score : ℤ
  formation : String
  soldier_count : ℤ
  cover_summary : CoverSummary
deriving Repr, DecidableEq

/-- The `overall_performance` sub-record of the summary
(performance_summarizer.py lines 146 to 152). -/
structure OverallPerformance where
  average_score : ℚ
  min_score : ℤ
  max_score : ℤ
  score_range : ℤ
  rating : String
deriving Repr, DecidableEq

/-- The aggregate summary dictionary (performance_summarizer.py lines
130 to 171).  The nested `tactical_errors` and `tactical_strengths`
dictionaries are flattened into `_total`, `_by_category` and
`_examples` fields. -/
structure Summary where
  video_name : String
  duration : ℚ
  resolution : ℤ × ℤ
  frame_count : ℕ
  frames_analyzed : List FrameStat
  overall_performance : OverallPerformance
  cover_statistics : CoverStats
  total_soldiers : ℤ
  formations_used : List String
  tactical_errors_total : ℕ
  tactical_errors_by_category : ErrorFrequency
  tactical_errors_examples : List String
  tactical_strengths_total : ℕ
  tactical_strengths_by_category : StrengthFrequency
  tactical_strengths_examples : List String
  recommendations : List String
deriving Repr, DecidableEq

/-- A `cover_summary` with every key absent: the `.get('cover_summary',
dict())` default. -/
def empty_cover_summary : CoverSummary where
  full_cover := none
  partial_cover := none
  no_cover := none
  exposed := none

/-- The summary built by `aggregate_analysis` once the empty-input guard
has passed (performance_summarizer.py lines 70 to 171). -/
def aggregate_summary (analysis_results : List AnalysisResult)
    (video_metadata : VideoMetadata) : Summary :=
  let total_frames := analysis_results.length
  let scores : List ℤ := analysis_results.map (fun r => r.analysis.score.getD 0)
  let avg_score : ℚ :=
    if 0 < total_frames then (scores.sum : ℚ) / (total_frames : ℚ) else 0
  let all_errors :=
    analysis_results.foldl (fun acc r => acc ++ r.analysis.tactical_errors.getD []) []
  let all_strengths :=
    analysis_results.foldl (fun acc r => acc ++ r.analysis.tactical_strengths.getD []) []
  let total_soldier_count :=
    (analysis_results.map (fun r => r.analysis.soldier_count.getD 0)).sum
  let cover_stats :=
    analysis_results.foldl
      (fun stats r =>
        let cover_summary := r.analysis.cover_summary.getD empty_cover_summary
        { full_cover := stats.full_cover + cover_summary.full_cover.getD 0
          partial_cover := stats.partial_cover + cover_summary.partial_cover.getD 0
          no_cover := stats.no_cover + cover_summary.no_cover.getD 0
          exposed := stats.exposed + cover_summary.exposed.getD 0 })
      { full_cover := 0, partial_cover := 0, no_cover := 0, exposed := 0 }
  let formations := analysis_results.map
    (fun r => ((r.analysis.movement_analysis.getD { formation := none }).formation).getD "unknown")
  let error_frequency := categorize_errors all_errors
  let strength_frequency := categorize_strengths all_strengths
  { video_name := video_metadata.filename.getD "Unknown"
    duration := video_metadata.duration.getD 0
    resolution := video_metadata.resolution.getD (0, 0)
    frame_count := total_frames
    frames_analyzed := analysis_results.map
      (fun r =>
        { index := r.index
          timestamp := r.timestamp
          score := r.analysis.score.getD 0
          formation := ((r.analysis.movement_analysis.getD { formation := none }).formation).getD "unknown"
          soldier_count := r.analysis.soldier_count.getD 0
          cover_summary := r.analysis.cover_summary.getD empty_cover_summary })
    overall_performance :=
      { average_score := pyRound1 avg_score
        min_score := list_min scores
        max_score := list_max scores
        score_range := list_max scores - list_min scores
        rating := get_performance_rating avg_score }
    cover_statistics := cover_stats
    total_soldiers := total_soldier_count
    formations_used := formations.dedup
    tactical_errors_total := all_errors.length
    tactical_errors_by_category := error_frequency
    tactical_errors_examples := all_errors.take 5
    tactical_strengths_total := all_strengths.length
    tactical_strengths_by_category := strength_frequency
    tactical_strengths_examples := all_strengths.take 5
    recommendations :=
      generate_recommendations avg_score error_frequency strength_frequency }

/-- `PerformanceSummarizer.aggregate_analysis` (performance_summarizer.py
lines 50 to 179): `ValueError` on an empty input list, otherwise the
aggregate summary.  `list(set(formations))` iterates a Python set in an
unspecified order; `List.dedup` keeps first occurrences, and no verified
claim depends on that order. -/
def aggregate_analysis (analysis_results : List AnalysisResult)
    (video_metadata : VideoMetadata) : Except String Summary :=
  match analysis_results with
  | [] => Except.error "No analysis results to aggregate"
  | r :: rs => Except.ok (aggregate_summary (r :: rs) video_metadata)

/-- An analysis record with every optional field absent. -/
def empty_analysis : Analysis where
  score := none
  soldier_count := none
  cover_summary := none
  movement_analysis := none
  tactical_errors := none
  tactical_strengths := none

/-- A frame record whose `analysis` dictionary is entirely empty. -/
def empty_result : AnalysisResult where
  index := 0
  timestamp := 0
  analysis := empty_analysis

/-- Video metadata with every key absent. -/
def empty_video : VideoMetadata where
  filename := none
  duration := none
  resolution := none

/-- A frame record carrying only a score. -/
def score_only_result (s : ℤ) : AnalysisResult where
  index := 0
  timestamp := 0
  analysis :=
    { score := some s
      soldier_count := none
      cover_summary := none
      movement_analysis := none
      tactical_errors := none
      tactical_strengths := none }

/-! ### Helper lemmas -/

lemma pyInt_of_nonneg {x : ℚ} (hx : 0 ≤ x) : pyInt x = ⌊x⌋ := if_pos hx

/-- `int(a * (m / b))` over exact rationals is natural-number division. -/
lemma pyInt_mul_div_toNat (a m b : ℕ) :
    (pyInt ((a : ℚ) * ((m : ℚ) / (b : ℚ)))).toNat = a * m / b := by
  have hx : (0 : ℚ) ≤ (a : ℚ) * ((m : ℚ) / (b : ℚ)) := by positivity
  rw [pyInt_of_nonneg hx, Int.floor_toNat]
  have hcast : (a : ℚ) * ((m : ℚ) / (b : ℚ)) = ((a * m : ℕ) : ℚ) / ((b : ℕ) : ℚ) := by
    push_cast; ring
  rw [hcast, Nat.floor_div_eq_div]

lemma nat_mul_div_le (a m b : ℕ) (hab : a ≤ b) (hb : 0 < b) : a * m / b ≤ m := by
  calc a * m / b ≤ b * m / b := Nat.div_le_div_right (Nat.mul_le_mul_right m hab)
  _ = m := Nat.mul_div_cancel_left m hb

/-- Evaluation of `_resize_image` with the truncated dimension expressed
as natural-number division. -/
lemma resize_image_eq (image : PImage) (max_dimension : ℕ) :
    resize_image image max_dimension =
      if image.width ≤ max_dimension ∧ image.height ≤ max_dimension then image
      else if image.width > image.height then
        { width := max_dimension
          height := image.height * max_dimension / image.width }
      else
        { height := max_dimension
          width := image.width * max_dimension / image.height } := by
  rw [resize_image]
  split_ifs <;> simp [pyInt_mul_div_toNat]

lemma resize_of_le (image : PImage) (max_dimension : ℕ)
    (h1 : image.width ≤ max_dimension) (h2 : image.height ≤ max_dimension) :
    resize_image image max_dimension = image := by
  rw [resize_image, if_pos ⟨h1, h2⟩]

lemma resize_dims_le (image : PImage) (max_dimension : ℕ)
    (h : ¬(image.width ≤ max_dimension ∧ image.height ≤ max_dimension)) :
    (resize_image image max_dimension).width ≤ max_dimension ∧
    (resize_image image max_dimension).height ≤ max_dimension := by
  rw [resize_image_eq, if_neg h]
  by_cases hwh : image.width > image.height
  · rw [if_pos hwh]
    exact ⟨le_refl _,
      nat_mul_div_le image.height max_dimension image.width (le_of_lt hwh) (by omega)⟩
  · rw [if_neg hwh]
    push_neg at hwh
    exact ⟨nat_mul_div_le image.width max_dimension image.height hwh (by omega), le_refl _⟩

/-! ### Claim theorems: frame extraction -/

/-- Claim C1, counterexample to the claim as stated: at `totalFrames =
10` and `p = 1.0` the computed index is `10`, which is not at most
`totalFrames - 1 = 9`; `extract_key_frames` applies no clamping. -/
theorem frame_number_at_one_hundred_percent :
    frame_number 10 1 = 10 ∧ ¬(frame_number 10 1 ≤ (10 : ℤ) - 1) := by
  have h : frame_number 10 1 = 10 := by
    rw [frame_number, pyInt_of_nonneg (by norm_num)]
    norm_num
  exact ⟨h, by rw [h]; decide⟩

/-- Claim C1, amended: for every video with `totalFrames ≥ 1` and every
position `p` with `0 ≤ p < 1`, the unclamped index `int(totalFrames * p)`
computed by `extract_key_frames` satisfies `0 ≤ index ≤ totalFrames - 1`;
at `p = 1.0` the index equals `totalFrames`, outside that range. -/
theorem frame_number_in_range (total_frames : ℕ) (position : ℚ)
    (htf : 1 ≤ total_frames) (h0 : 0 ≤ position) (h1 : position < 1) :
    0 ≤ frame_number total_frames position ∧
    frame_number total_frames position ≤ (total_frames : ℤ) - 1 := by
  have hx : (0 : ℚ) ≤ (total_frames : ℚ) * position := by positivity
  rw [frame_number, pyInt_of_nonneg hx]
  refine ⟨Int.floor_nonneg.2 hx, ?_⟩
  have htQ : (0 : ℚ) < (total_frames : ℚ) := by exact_mod_cast htf
  have hlt : (total_frames : ℚ) * position < (total_frames : ℚ) := by
    calc (total_frames : ℚ) * position < (total_frames : ℚ) * 1 :=
          mul_lt_mul_of_pos_left h1 htQ
    _ = (total_frames : ℚ) := mul_one _
  have hfl : ⌊(total_frames : ℚ) * position⌋ < (total_frames : ℤ) :=
    Int.floor_lt.2 (by exact_mod_cast hlt)
  omega

theorem frame_number_in_range_witness :
    0 ≤ frame_number 10 (1/2) ∧ frame_number 10 (1/2) ≤ (10 : ℤ) - 1 :=
  frame_number_in_range 10 (1/2) (by norm_num) (by norm_num) (by norm_num)

/-- Claim C2, counterexample to the claim as stated: for a 1440 by 1003
image and `maxDimension = 720` the code truncates `1003 * 720 / 1440 =
501.5` to `501`, while `round` of the same quantity is `502`. -/
theorem resize_image_truncates_not_rounds :
    resize_image ⟨1440, 1003⟩ 720 = ⟨720, 501⟩ ∧
    pyRound ((1003 : ℚ) * ((720 : ℚ) / (1440 : ℚ))) = 502 ∧
    ¬(((resize_image ⟨1440, 1003⟩ 720).height : ℤ) =
        pyRound ((1003 : ℚ) * ((720 : ℚ) / (1440 : ℚ)))) := by
  have h1 : resize_image ⟨1440, 1003⟩ 720 = ⟨720, 501⟩ := by
    rw [resize_image_eq]; decide
  have h2 : pyRound ((1003 : ℚ) * ((720 : ℚ) / (1440 : ℚ))) = 502 := by
    rw [pyRound]
    norm_num
  refine ⟨h1, h2, ?_⟩
  rw [h1, h2]; decide

/-- Claim C2, amended: if both dimensions are at most `maxDimension` the
image is returned unchanged; otherwise the larger dimension of the result
equals `maxDimension` and the other dimension is the truncation
`int(otherDim * maxDimension / largerDim)` (the source truncates with
`int`, it does not round). -/
theorem resize_image_policy (image : PImage) (max_dimension : ℕ) :
    (image.width ≤ max_dimension ∧ image.height ≤ max_dimension →
      resize_image image max_dimension = image) ∧
    (¬(image.width ≤ max_dimension ∧ image.height ≤ max_dimension) →
      max (resize_image image max_dimension).width
          (resize_image image max_dimension).height = max_dimension ∧
      min (resize_image image max_dimension).width
          (resize_image image max_dimension).height =
        min image.width image.height * max_dimension /
          max image.width image.height) := by
  constructor
  · intro h
    exact resize_of_le image max_dimension h.1 h.2
  · intro h
    rw [resize_image_eq, if_neg h]
    by_cases hwh : image.width > image.height
    · rw [if_pos hwh]
      have hle : image.height * max_dimension / image.width ≤ max_dimension :=
        nat_mul_div_le image.height max_dimension image.width (le_of_lt hwh) (by omega)
      refine ⟨Nat.max_eq_left hle, ?_⟩
      rw [Nat.min_eq_right hle, Nat.min_eq_right (le_of_lt hwh),
        Nat.max_eq_left (le_of_lt hwh)]
    · rw [if_neg hwh]
      push_neg at hwh
      have hle : image.width * max_dimension / image.height ≤ max_dimension :=
        nat_mul_div_le image.width max_dimension image.height hwh (by omega)
      refine ⟨Nat.max_eq_right hle, ?_⟩
      rw [Nat.min_eq_left hle, Nat.min_eq_left hwh, Nat.max_eq_right hwh]

theorem resize_image_policy_witness :
    resize_image ⟨640, 480⟩ 720 = ⟨640, 480⟩ ∧
    (max (resize_image ⟨1440, 1003⟩ 720).width
        (resize_image ⟨1440, 1003⟩ 720).height = 720 ∧
     min (resize_image ⟨1440, 1003⟩ 720).width
        (resize_image ⟨1440, 1003⟩ 720).height = min 1440 1003 * 720 / max 1440 1003) :=
  ⟨(resize_image_policy ⟨640, 480⟩ 720).1 (by decide),
   (resize_image_policy ⟨1440, 1003⟩ 720).2 (by decide)⟩

/-- Claim C8: an image already within `maxDimension` is returned
unchanged, and resizing twice with the same `maxDimension` equals
resizing once. -/
theorem resize_image_idempotent (image : PImage) (max_dimension : ℕ) :
    (image.width ≤ max_dimension ∧ image.height ≤ max_dimension →
      resize_image image max_dimension = image) ∧
    resize_image (resize_image image max_dimension) max_dimension =
      resize_image image max_dimension := by
  refine ⟨fun h => resize_of_le image max_dimension h.1 h.2, ?_⟩
  by_cases h : image.width ≤ max_dimension ∧ image.height ≤ max_dimension
  · rw [resize_of_le image max_dimension h.1 h.2]
    exact resize_of_le image max_dimension h.1 h.2
  · have hr := resize_dims_le image max_dimension h
    exact resize_of_le _ max_dimension hr.1 hr.2

theorem resize_image_idempotent_witness :
    resize_image ⟨640, 480⟩ 720 = ⟨640, 480⟩ ∧
    resize_image (resize_image ⟨1920, 1080⟩ 720) 720 =
      resize_image ⟨1920, 1080⟩ 720 :=
  ⟨(resize_image_idempotent ⟨640, 480⟩ 720).1 (by decide),
   (resize_image_idempotent ⟨1920, 1080⟩ 720).2⟩

/-- Claim C9: Python `or` defaulting at the interface of
`extract_key_frames` replaces a falsy explicit argument (`0` or the empty
list) by the configured default, and with the default configuration an
empty positions argument still yields a non-empty sample plan. -/
theorem extract_key_frames_falsy_defaults (config : Config) :
    resolve_num_frames (some 0) config = config.NUM_FRAMES ∧
    resolve_positions (some []) config = config.FRAME_EXTRACTION_POSITIONS ∧
    resolve_resize_max (some 0) config = config.FRAME_RESIZE_MAX ∧
    Config.defaults.NUM_FRAMES = 3 ∧
    Config.defaults.FRAME_EXTRACTION_POSITIONS = [1/4, 1/2, 3/4] ∧
    Config.defaults.FRAME_RESIZE_MAX = 720 ∧
    ∀ num_frames : Option ℕ,
      0 < (sample_plan num_frames (some []) Config.defaults).length := by
  refine ⟨rfl, rfl, rfl, rfl, rfl, rfl, ?_⟩
  intro num_frames
  rcases num_frames with _ | n
  · simp [sample_plan, resolve_positions, resolve_num_frames, Config.defaults]
  · by_cases hn : n = 0
    · simp [sample_plan, resolve_positions, resolve_num_frames, Config.defaults, hn]
    · simp [sample_plan, resolve_positions, resolve_num_frames, Config.defaults, hn,
        List.length_take]
      omega

/-! ### Helper lemmas: summarizer -/

lemma rating_excellent_iff (s : ℚ) :
    get_performance_rating s = "Excellent" ↔ 90 ≤ s := by
  unfold get_performance_rating
  split_ifs <;> simp_all

lemma rating_good_iff (s : ℚ) :
    get_performance_rating s = "Good" ↔ 75 ≤ s ∧ s < 90 := by
  unfold get_performance_rating
  split_ifs <;> simp_all

lemma rating_satisfactory_iff (s : ℚ) :
    get_performance_rating s = "Satisfactory" ↔ 60 ≤ s ∧ s < 75 := by
  unfold get_performance_rating
  split_ifs <;> simp_all
  all_goals try intro _h
  all_goals linarith

lemma rating_needs_improvement_iff (s : ℚ) :
    get_performance_rating s = "Needs Improvement" ↔ 50 ≤ s ∧ s < 60 := by
  unfold get_performance_rating
  split_ifs <;> simp_all
  all_goals try intro _h
  all_goals linarith

lemma rating_remedial_iff (s : ℚ) :
    get_performance_rating s = "Requires Remedial Training" ↔ s < 50 := by
  unfold get_performance_rating
  split_ifs <;> simp_all
  all_goals linarith

lemma app_ite (c : Prop) [Decidable c] (l : List String) (r : String) :
    (if c then l ++ [r] else l) = l ++ (if c then [r] else []) := by
  split_ifs <;> simp

lemma take_ite_defaults (L : List String) :
    (if L = [] then L ++ [default_rec_one, default_rec_two] else L).take 5 =
    if L = [] then [default_rec_one, default_rec_two] else L.take 5 := by
  split_ifs with h
  · rw [h]
    rfl
  · rfl

/-- The sequential conditional appends of `_generate_recommendations`
produce exactly the enabled candidates in order, with the two defaults
when no condition fired, truncated to five entries. -/
lemma generate_recommendations_eq (avg_score : ℚ) (errors : ErrorFrequency)
    (strengths : StrengthFrequency) :
    generate_recommendations avg_score errors strengths =
      if rec_candidates avg_score errors strengths = [] then [default_rec_one, default_rec_two]
      else (rec_candidates avg_score errors strengths).take 5 := by
  unfold generate_recommendations
  simp only [app_ite, List.nil_append]
  exact take_ite_defaults (rec_candidates avg_score errors strengths)

lemma categorize_errors_go (f : ErrorFrequency) (es : List String) :
    (es.foldl
      (fun freq error =>
        { spacing_issues := freq.spacing_issues + (if error_is_spacing error then 1 else 0)
          cover_issues := freq.cover_issues + (if error_is_cover error then 1 else 0)
          formation_issues := freq.formation_issues + (if error_is_formation error then 1 else 0) })
      f) =
    { spacing_issues := f.spacing_issues + es.countP error_is_spacing
      cover_issues := f.cover_issues + es.countP error_is_cover
      formation_issues := f.formation_issues + es.countP error_is_formation } := by
  induction es generalizing f with
  | nil => simp
  | cons e rest ih =>
    rw [List.foldl_cons, ih]
    simp only [List.countP_cons, ErrorFrequency.mk.injEq]
    refine ⟨?_, ?_, ?_⟩ <;> split_ifs <;> omega

lemma categorize_strengths_go (f : StrengthFrequency) (ss : List String) :
    (ss.foldl
      (fun freq strength =>
        { cover_utilization := freq.cover_utilization + (if strength_is_cover strength then 1 else 0)
          formation_discipline := freq.formation_discipline + (if strength_is_formation strength then 1 else 0)
          weapon_discipline := freq.weapon_discipline + (if strength_is_weapon strength then 1 else 0) })
      f) =
    { cover_utilization := f.cover_utilization + ss.countP strength_is_cover
      formation_discipline := f.formation_discipline + ss.countP strength_is_formation
      weapon_discipline := f.weapon_discipline + ss.countP strength_is_weapon } := by
  induction ss generalizing f with
  | nil => simp
  | cons e rest ih =>
    rw [List.foldl_cons, ih]
    simp only [List.countP_cons, StrengthFrequency.mk.injEq]
    refine ⟨?_, ?_, ?_⟩ <;> split_ifs <;> omega

/-! ### Claim theorems: summarizer -/

/-- Claim C3: `_generate_recommendations` evaluates its six conditions in
the fixed order recorded by `rec_candidates`, returns exactly the two
default recommendations when no condition fired, otherwise the enabled
recommendations in order, and its result never has more than five
entries. -/
theorem generate_recommendations_ordered_capped (avg_score : ℚ)
    (errors : ErrorFrequency) (strengths : StrengthFrequency) :
    (generate_recommendations avg_score errors strengths).length ≤ 5 ∧
    generate_recommendations avg_score errors strengths =
      (if rec_candidates avg_score errors strengths = []
       then [default_rec_one, default_rec_two]
       else (rec_candidates avg_score errors strengths).take 5) := by
  refine ⟨?_, generate_recommendations_eq avg_score errors strengths⟩
  rw [generate_recommendations_eq]
  split_ifs
  · simp
  · simp only [List.length_take]
    omega

/-- Claim C4: the rating bands of `_get_performance_rating` have
inclusive lower bounds 90, 75, 60, 50, with the stated boundary
behaviour at 90, 89.999, 50 and 49.999. -/
theorem performance_rating_bands (s : ℚ) :
    (get_performance_rating s = "Excellent" ↔ 90 ≤ s) ∧
    (get_performance_rating s = "Good" ↔ 75 ≤ s ∧ s < 90) ∧
    (get_performance_rating s = "Satisfactory" ↔ 60 ≤ s ∧ s < 75) ∧
    (get_performance_rating s = "Needs Improvement" ↔ 50 ≤ s ∧ s < 60) ∧
    (get_performance_rating s = "Requires Remedial Training" ↔ s < 50) ∧
    get_performance_rating 90 = "Excellent" ∧
    get_performance_rating (89999/1000) = "Good" ∧
    get_performance_rating 50 = "Needs Improvement" ∧
    get_performance_rating (49999/1000) = "Requires Remedial Training" :=
  ⟨rating_excellent_iff s, rating_good_iff s, rating_satisfactory_iff s,
   rating_needs_improvement_iff s, rating_remedial_iff s,
   by unfold get_performance_rating; norm_num,
   by unfold get_performance_rating; norm_num,
   by unfold get_performance_rating; norm_num,
   by unfold get_performance_rating; norm_num⟩

/-- Claim C6: each category counter equals the number of strings whose
lowercased text contains one of the trigger substrings; the counters are
independent, so a single string increments every category it matches, as
the concrete mixed-category, mixed-case examples show. -/
theorem categorization_counts (errors strengths : List String) :
    (categorize_errors errors).spacing_issues = errors.countP error_is_spacing ∧
    (categorize_errors errors).cover_issues = errors.countP error_is_cover ∧
    (categorize_errors errors).formation_issues = errors.countP error_is_formation ∧
    (categorize_strengths strengths).cover_utilization = strengths.countP strength_is_cover ∧
    (categorize_strengths strengths).formation_discipline = strengths.countP strength_is_formation ∧
    (categorize_strengths strengths).weapon_discipline = strengths.countP strength_is_weapon ∧
    categorize_errors ["Formation too TIGHT, Exposed"] =
      { spacing_issues := 1, cover_issues := 1, formation_issues := 1 } ∧
    categorize_strengths ["Good use of Cover and formation stack"] =
      { cover_utilization := 1, formation_discipline := 1, weapon_discipline := 0 } := by
  refine ⟨?_, ?_, ?_, ?_, ?_, ?_, by decide, by decide⟩ <;>
    simp [categorize_errors, categorize_strengths, categorize_errors_go,
      categorize_strengths_go]

/-- Claim C5: `aggregate_analysis` fails with the empty-input error
exactly on an empty analyses list, and succeeds on every non-empty
list. -/
theorem aggregate_analysis_empty_input (analysis_results : List AnalysisResult)
    (video_metadata : VideoMetadata) :
    (aggregate_analysis analysis_results video_metadata =
        Except.error "No analysis results to aggregate" ↔ analysis_results = []) ∧
    ((∃ s, aggregate_analysis analysis_results video_metadata = Except.ok s) ↔
      analysis_results ≠ []) := by
  rcases analysis_results with _ | ⟨r, rs⟩ <;> simp [aggregate_analysis]

theorem aggregate_analysis_empty_input_witness :
    aggregate_analysis [] empty_video = Except.error "No analysis results to aggregate" ∧
    ∃ s, aggregate_analysis [empty_result] empty_video = Except.ok s :=
  ⟨(aggregate_analysis_empty_input [] empty_video).1.mpr rfl,
   (aggregate_analysis_empty_input [empty_result] empty_video).2.mpr (by simp)⟩

lemma foldl_min_spec (xs : List ℤ) (a : ℤ) :
    (xs.foldl min a = a ∨ xs.foldl min a ∈ xs) ∧
    xs.foldl min a ≤ a ∧ ∀ y ∈ xs, xs.foldl min a ≤ y := by
  induction xs generalizing a with
  | nil => simp
  | cons b bs ih =>
    obtain ⟨hmem, hle, hall⟩ := ih (min a b)
    rw [List.foldl_cons]
    refine ⟨?_, ?_, ?_⟩
    · rcases hmem with h | h
      · rcases min_choice a b with hc | hc
        · rw [h, hc]
          exact Or.inl rfl
        · rw [h, hc]
          exact Or.inr (List.mem_cons_self b bs)
      · exact Or.inr (List.mem_cons_of_mem b h)
    · exact hle.trans (min_le_left a b)
    · intro y hy
      rcases List.mem_cons.mp hy with rfl | hy
      · exact hle.trans (min_le_right a y)
      · exact hall y hy

lemma foldl_max_spec (xs : List ℤ) (a : ℤ) :
    (xs.foldl max a = a ∨ xs.foldl max a ∈ xs) ∧
    a ≤ xs.foldl max a ∧ ∀ y ∈ xs, y ≤ xs.foldl max a := by
  induction xs generalizing a with
  | nil => simp
  | cons b bs ih =>
    obtain ⟨hmem, hle, hall⟩ := ih (max a b)
    rw [List.foldl_cons]
    refine ⟨?_, ?_, ?_⟩
    · rcases hmem with h | h
      · rcases max_choice a b with hc | hc
        · rw [h, hc]
          exact Or.inl rfl
        · rw [h, hc]
          exact Or.inr (List.mem_cons_self b bs)
      · exact Or.inr (List.mem_cons_of_mem b h)
    · exact (le_max_left a b).trans hle
    · intro y hy
      rcases List.mem_cons.mp hy with rfl | hy
      · exact (le_max_right a y).trans hle
      · exact hall y hy

/-- Python `min` over a non-empty list returns a member. -/
lemma list_min_mem (x : ℤ) (xs : List ℤ) : list_min (x :: xs) ∈ x :: xs := by
  rw [list_min]
  rcases (foldl_min_spec xs x).1 with h | h
  · rw [h]
    exact List.mem_cons_self x xs
  · exact List.mem_cons_of_mem x h

/-- Python `min` over a non-empty list is a lower bound. -/
lemma list_min_le (x : ℤ) (xs : List ℤ) : ∀ y ∈ x :: xs, list_min (x :: xs) ≤ y := by
  intro y hy
  rw [list_min]
  rcases List.mem_cons.mp hy with rfl | hy
  · exact (foldl_min_spec xs y).2.1
  · exact (foldl_min_spec xs x).2.2 y hy

/-- Python `max` over a non-empty list returns a member. -/
lemma list_max_mem (x : ℤ) (xs : List ℤ) : list_max (x :: xs) ∈ x :: xs := by
  rw [list_max]
  rcases (foldl_max_spec xs x).1 with h | h
  · rw [h]
    exact List.mem_cons_self x xs
  · exact List.mem_cons_of_mem x h

/-- Python `max` over a non-empty list is an upper bound. -/
lemma list_max_ge (x : ℤ) (xs : List ℤ) : ∀ y ∈ x :: xs, y ≤ list_max (x :: xs) := by
  intro y hy
  rw [list_max]
  rcases List.mem_cons.mp hy with rfl | hy
  · exact (foldl_max_spec xs y).2.1
  · exact (foldl_max_spec xs x).2.2 y hy

/-- Claim C7: for every non-empty analyses list the overall score
statistics satisfy: displayed average is `round(sum / count, 1)` while
rating is computed from the full-precision average, `min_score` is a
member and lower bound of the scores, `max_score` a member and upper
bound, and `score_range = max - min`; on scores `[80, 60, 100]` the
fields are `80.0`, `60`, `100`, `40` and `"Good"`. -/
theorem aggregate_score_stats (r : AnalysisResult) (rs : List AnalysisResult)
    (video_metadata : VideoMetadata) :
    ∃ s, aggregate_analysis (r :: rs) video_metadata = Except.ok s ∧
      s.overall_performance.average_score =
        pyRound1 (((((r :: rs).map (fun x => x.analysis.score.getD 0)).sum : ℤ) : ℚ) /
          ((r :: rs).length : ℚ)) ∧
      s.overall_performance.rating =
        get_performance_rating
          (((((r :: rs).map (fun x => x.analysis.score.getD 0)).sum : ℤ) : ℚ) /
            ((r :: rs).length : ℚ)) ∧
      s.overall_performance.min_score ∈ (r :: rs).map (fun x => x.analysis.score.getD 0) ∧
      (∀ y ∈ (r :: rs).map (fun x => x.analysis.score.getD 0),
        s.overall_performance.min_score ≤ y) ∧
      s.overall_performance.max_score ∈ (r :: rs).map (fun x => x.analysis.score.getD 0) ∧
      (∀ y ∈ (r :: rs).map (fun x => x.analysis.score.getD 0),
        y ≤ s.overall_performance.max_score) ∧
      s.overall_performance.score_range =
        s.overall_performance.max_score - s.overall_performance.min_score ∧
      Except.map (fun t => (t.overall_performance.average_score,
          t.overall_performance.min_score, t.overall_performance.max_score,
          t.overall_performance.score_range, t.overall_performance.rating))
        (aggregate_analysis [score_only_result 80, score_only_result 60, score_only_result 100]
          empty_video) =
        Except.ok (80, 60, 100, 40, "Good") := by
  refine ⟨aggregate_summary (r :: rs) video_metadata, rfl, ?_, ?_, ?_, ?_, ?_, ?_, ?_, ?_⟩
  · simp only [aggregate_summary, List.length_cons, Nat.zero_lt_succ, if_true]
  · simp only [aggregate_summary, List.length_cons, Nat.zero_lt_succ, if_true]
  · simp only [aggregate_summary, List.map_cons]
    exact list_min_mem _ _
  · simp only [aggregate_summary, List.map_cons]
    exact list_min_le _ _
  · simp only [aggregate_summary, List.map_cons]
    exact list_max_mem _ _
  · simp only [aggregate_summary, List.map_cons]
    exact list_max_ge _ _
  · rfl
  · simp only [aggregate_analysis, aggregate_summary, score_only_result, Except.map, empty_video]
    norm_num [pyRound1, pyRound, list_min, list_max, get_performance_rating]

theorem aggregate_score_stats_witness :
    ∃ s, aggregate_analysis [score_only_result 80, score_only_result 60, score_only_result 100]
        empty_video = Except.ok s ∧
      s.overall_performance.average_score =
        pyRound1 ((((([score_only_result 80, score_only_result 60, score_only_result 100]).map
          (fun x => x.analysis.score.getD 0)).sum : ℤ) : ℚ) /
          (([score_only_result 80, score_only_result 60, score_only_result 100]).length : ℚ)) ∧
      s.overall_performance.rating =
        get_performance_rating
          ((((([score_only_result 80, score_only_result 60, score_only_result 100]).map
            (fun x => x.analysis.score.getD 0)).sum : ℤ) : ℚ) /
            (([score_only_result 80, score_only_result 60, score_only_result 100]).length : ℚ)) ∧
      s.overall_performance.min_score ∈
        ([score_only_result 80, score_only_result 60, score_only_result 100]).map
          (fun x => x.analysis.score.getD 0) ∧
      (∀ y ∈ ([score_only_result 80, score_only_result 60, score_only_result 100]).map
          (fun x => x.analysis.score.getD 0),
        s.overall_performance.min_score ≤ y) ∧
      s.overall_performance.max_score ∈
        ([score_only_result 80, score_only_result 60, score_only_result 100]).map
          (fun x => x.analysis.score.getD 0) ∧
      (∀ y ∈ ([score_only_result 80, score_only_result 60, score_only_result 100]).map
          (fun x => x.analysis.score.getD 0),
        y ≤ s.overall_performance.max_score) ∧
      s.overall_performance.score_range =
        s.overall_performance.max_score - s.overall_performance.min_score ∧
      Except.map (fun t => (t.overall_performance.average_score,
          t.overall_performance.min_score, t.overall_performance.max_score,
          t.overall_performance.score_range, t.overall_performance.rating))
        (aggregate_analysis [score_only_result 80, score_only_result 60, score_only_result 100]
          empty_video) =
        Except.ok (80, 60, 100, 40, "Good") :=
  aggregate_score_stats (score_only_result 80) [score_only_result 60, score_only_result 100]
    empty_video

/-- Claim C10: `aggregate_analysis` succeeds on every non-empty list of
records carrying `index`, `timestamp` and `analysis`, because every
field of the per-frame analysis is read through `.get` with a default:
for a record with an entirely empty analysis dictionary the score,
soldier count and cover counters count as 0, the error and strength
lists as empty, and the formation as "unknown". -/
theorem aggregate_analysis_total_on_optional_fields (r : AnalysisResult)
    (rs : List AnalysisResult) (video_metadata : VideoMetadata) :
    (∃ s, aggregate_analysis (r :: rs) video_metadata = Except.ok s) ∧
    Except.map (fun s => (s.video_name, s.duration, s.overall_performance.average_score,
        s.total_soldiers, s.cover_statistics, s.formations_used,
        s.tactical_errors_total, s.tactical_strengths_total, s.frames_analyzed))
      (aggregate_analysis [empty_result] empty_video) =
      Except.ok ("Unknown", 0, 0, 0, ⟨0, 0, 0, 0⟩, ["unknown"], 0, 0,
        [⟨0, 0, 0, "unknown", 0, empty_cover_summary⟩]) := by
  refine ⟨⟨aggregate_summary (r :: rs) video_metadata, rfl⟩, ?_⟩
  simp only [aggregate_analysis, aggregate_summary, empty_result, empty_analysis, Except.map,
    empty_video]
  norm_num [pyRound1, pyRound, list_min, list_max, empty_cover_summary]

end UrbanWarfare
